import Mathlib

/-!
Verification of the session-orchestrator logic of the "Cat Court" app
(`src/App.tsx`, `src/types.ts`): the state transitions `handleAppeal`,
`handleAcceptVerdict`, `handleJudgeClick`, the typing-sound throttle
`handleTypingSound`, and the startup image loading flow `loadImages`.

The React component state is embedded as an explicit record `AppState`;
each handler becomes a pure function on that record.  The fallible remote
calls (`getJudgment`, `generateCharacterImage`, the IndexedDB cache) are
parameters of type `Except Unit _` supplied by the environment.
-/

namespace PurrfectJudge

/-- Structure `Verdict` from `src/types.ts`: two numeric percentages and two texts.
JS numbers are modelled as `Int`; no arithmetic is performed on them. -/
structure Verdict where
  catPercentage : Int
  dogPercentage : Int
  reasoning : String
  solution : String
deriving DecidableEq

/-- Structure `CaseRound` from `src/types.ts`. -/
structure CaseRound where
  roundNumber : Nat
  catArg : String
  dogArg : String
  verdict : Verdict
deriving DecidableEq

/-- Structure `CharacterImages` from `src/types.ts`: each field is
`string | null`, modelled as `Option String`. -/
structure CharacterImages where
  judge : Option String
  catDebater : Option String
  dogDebater : Option String
deriving DecidableEq

/-- The component state of `App` (`src/App.tsx` lines 13-34): images,
loading flag, the two names, the two argument texts, the current verdict,
the judging flag and the history of appealed rounds. -/
structure AppState where
  images : CharacterImages
  loadingImages : Bool
  catName : String
  dogName : String
  catArg : String
  dogArg : String
  verdict : Option Verdict
  isJudging : Bool
  history : List CaseRound
deriving DecidableEq

/-- Function `handleAppeal` (`src/App.tsx` lines 113-133): returns early when no
verdict is set; otherwise appends a `CaseRound` built from the current
arguments and verdict (with `roundNumber = history.length + 1`) to the
history and clears the verdict and both arguments. -/
def handleAppeal (s : AppState) : AppState :=
  match s.verdict with
  | none => s
  | some v =>
      let newRound : CaseRound :=
        { roundNumber := s.history.length + 1
          catArg := s.catArg
          dogArg := s.dogArg
          verdict := v }
      { s with
          history := s.history ++ [newRound]
          verdict := none
          catArg := ""
          dogArg := "" }

/-- Function `handleAcceptVerdict` (`src/App.tsx` lines 135-144): resets the
verdict, both arguments, the history and both names. -/
def handleAcceptVerdict (s : AppState) : AppState :=
  { s with
      verdict := none
      catArg := ""
      dogArg := ""
      history := []
      catName := ""
      dogName := "" }

/-- The accept/appeal buttons are rendered only inside the
`{verdict && ...}` block (`src/App.tsx` line 309): the operations are
reachable only when a verdict exists. -/
def acceptAvailable (s : AppState) : Bool :=
  s.verdict.isSome

/-- The argument tuple of a `getJudgment` call
(`getJudgment(catArg, dogArg, effectiveCatName, effectiveDogName, history)`). -/
structure JudgmentCall where
  catArg : String
  dogArg : String
  catName : String
  dogName : String
  history : List CaseRound
deriving DecidableEq

/-- Observable outcome of one run of `handleJudgeClick`: the final state,
whether the judging flag was raised during the run, the `getJudgment`
call made (if any), and whether the failure alert was shown. -/
structure JudgeOutcome where
  state : AppState
  wasJudging : Bool
  calledWith : Option JudgmentCall
  alerted : Bool
deriving DecidableEq

/-- The ECMAScript WhiteSpace and LineTerminator set removed by
`String.prototype.trim`: TAB, LF, VT, FF, CR, SP, NBSP, the Ogham space
mark, the Zs range U+2000-U+200A, LS, PS, the narrow no-break space, the
medium mathematical space, the ideographic space U+3000 and ZWNBSP
U+FEFF. -/
def jsWhitespace (c : Char) : Bool :=
  c = ' ' || c = '\t' || c = '\n' || c = '\x0b' || c = '\x0c' || c = '\r' ||
    c = '\u00A0' || c = '\u1680' ||
    (0x2000 ≤ c.toNat && c.toNat ≤ 0x200A) ||
    c = '\u2028' || c = '\u2029' || c = '\u202F' || c = '\u205F' ||
    c = '\u3000' || c = '\uFEFF'

/-- Model of the JavaScript `String.prototype.trim`: drop leading and
trailing characters of the ECMAScript white-space set.  Written over the
character list so that the kernel can evaluate it on concrete strings. -/
def trimString (s : String) : String :=
  ⟨((s.data.dropWhile jsWhitespace).reverse.dropWhile jsWhitespace).reverse⟩

/-- Function `handleJudgeClick` (`src/App.tsx` lines 90-111).  The guard is
`if (!catArg.trim() || !dogArg.trim()) return;` — the JS falsiness of the
empty string makes it a test that both trimmed arguments are nonempty.
On a pass, the judging flag is set and the previous verdict cleared,
`getJudgment` is called with the current arguments, the effective names
(`catName || '喵喵辩手'`, `dogName || '汪汪辩手'`) and the history; on
success the returned verdict is stored, on failure an alert is shown and
the verdict stays cleared; either way the judging flag ends false.
The remote call's result is the parameter `res`. -/
def handleJudgeClick (res : Except Unit Verdict) (s : AppState) : JudgeOutcome :=
  if trimString s.catArg = "" ∨ trimString s.dogArg = "" then
    { state := s, wasJudging := false, calledWith := none, alerted := false }
  else
    let effectiveCatName := if s.catName = "" then "喵喵辩手" else s.catName
    let effectiveDogName := if s.dogName = "" then "汪汪辩手" else s.dogName
    let call : JudgmentCall :=
      { catArg := s.catArg, dogArg := s.dogArg
        catName := effectiveCatName, dogName := effectiveDogName
        history := s.history }
    match res with
    | Except.ok v =>
        { state := { s with verdict := some v, isJudging := false }
          wasJudging := true
          calledWith := some call
          alerted := false }
    | Except.error _ =>
        { state := { s with verdict := none, isJudging := false }
          wasJudging := true
          calledWith := some call
          alerted := true }

/-- JS truthiness of a `string | null` value: `null` and the empty string
are falsy, any other string truthy.  Used by the cache-hit test
`if (cached && cached.judge && cached.catDebater && cached.dogDebater)`. -/
def jsTruthy : Option String → Bool
  | none => false
  | some s => !(s = "")

/-- The cache-hit condition of `loadImages` (`src/App.tsx` line 42): all
three image fields of the cached record are truthy. -/
def fullCache (c : CharacterImages) : Bool :=
  jsTruthy c.judge && jsTruthy c.catDebater && jsTruthy c.dogDebater

/-- Environment of one run of the startup `loadImages` effect: the result
of the IndexedDB read (`loadImagesFromDB` may return a record, return
nothing, or throw), the results of the three `generateCharacterImage`
calls, and the result of `saveImagesToDB`. -/
structure LoadEnv where
  cacheLoad : Except Unit (Option CharacterImages)
  genJudge : Except Unit String
  genCat : Except Unit String
  genDog : Except Unit String
  saveResult : Except Unit Unit

/-- Observable outcome of one run of `loadImages`: the final image state,
the final loading flag, how many `generateCharacterImage` calls were
made, and the record passed to `saveImagesToDB` (if it was called). -/
structure LoadOutcome where
  images : CharacterImages
  loadingImages : Bool
  genCalls : Nat
  saveRequested : Option CharacterImages
deriving DecidableEq

/-- The initial image state of the component (`src/App.tsx` lines 13-17):
all three images `null`. -/
def initialImages : CharacterImages :=
  { judge := none, catDebater := none, dogDebater := none }

/-- The generation path of `loadImages` (`src/App.tsx` lines 52-75):
`Promise.all` starts all three `generateCharacterImage` calls; if all
three succeed the record is stored and passed to `saveImagesToDB` (a save
failure is caught and changes nothing observable, as the images were
already set); if any fails, the catch leaves the images untouched (still
the initial all-`null` record at startup) and nothing is saved; the
`finally` clears the loading flag in every case. -/
def generateImagesPath (env : LoadEnv) : LoadOutcome :=
  match env.genJudge, env.genCat, env.genDog with
  | Except.ok j, Except.ok c, Except.ok d =>
      let newImages : CharacterImages :=
        { judge := some j, catDebater := some c, dogDebater := some d }
      { images := newImages, loadingImages := false
        genCalls := 3, saveRequested := some newImages }
  | _, _, _ =>
      { images := initialImages, loadingImages := false
        genCalls := 3, saveRequested := none }

/-- Function `loadImages` (`src/App.tsx` lines 37-79): try the cache; a
fully-populated record becomes the image state with no generation; a
missing or partial record, or a cache-read error (caught and logged),
falls through to the generation path. -/
def loadImages (env : LoadEnv) : LoadOutcome :=
  match env.cacheLoad with
  | Except.ok (some cached) =>
      if fullCache cached then
        { images := cached, loadingImages := false
          genCalls := 0, saveRequested := none }
      else generateImagesPath env
  | Except.ok none => generateImagesPath env
  | Except.error _ => generateImagesPath env

/-- Function `handleTypingSound` (`src/App.tsx` lines 81-88) for one
keystroke: given the `lastTypeTime` ref and the current `Date.now()`
value in milliseconds, return whether the typing sound plays and the
updated ref (set to `now` exactly when the sound plays). -/
def handleTypingSound (lastTypeTime now : Int) : Bool × Int :=
  if now - lastTypeTime > 100 then (true, now) else (false, lastTypeTime)

/-- Run `handleTypingSound` over a sequence of keystroke timestamps,
threading the `lastTypeTime` ref; returns, per keystroke, whether the
sound played. -/
def typingTrace (lastTypeTime : Int) : List Int → List Bool
  | [] => []
  | t :: ts =>
      let r := handleTypingSound lastTypeTime t
      r.1 :: typingTrace r.2 ts

end PurrfectJudge

namespace PurrfectJudge

/-- A sample verdict used by concrete witnesses. -/
def vSample : Verdict :=
  { catPercentage := 60, dogPercentage := 40
    reasoning := "r", solution := "s" }

/-- A sample state with a verdict present and one prior round. -/
def sSample : AppState :=
  { images := { judge := some "j", catDebater := some "c", dogDebater := some "d" }
    loadingImages := false
    catName := "Tom"
    dogName := ""
    catArg := "box"
    dogArg := "share"
    verdict := some vSample
    isJudging := false
    history := [{ roundNumber := 1, catArg := "a", dogArg := "b", verdict := vSample }] }

end PurrfectJudge

namespace PurrfectJudge

/-- C1: with a verdict present, `handleAppeal` appends exactly one
`CaseRound` to the history, whose `roundNumber` is the prior history
length + 1 and whose fields are the current arguments and verdict, and
clears the arguments and verdict; with no verdict it changes nothing. -/
theorem handleAppeal_spec (s : AppState) :
    (∀ v, s.verdict = some v →
      handleAppeal s =
        { s with
            history := s.history ++
              [{ roundNumber := s.history.length + 1
                 catArg := s.catArg
                 dogArg := s.dogArg
                 verdict := v }]
            verdict := none
            catArg := ""
            dogArg := "" }) ∧
    (s.verdict = none → handleAppeal s = s) := by
  constructor
  · intro v hv
    simp [handleAppeal, hv]
  · intro hv
    simp [handleAppeal, hv]

/-- Witness for C1: evaluating `handleAppeal` on a concrete state with a
verdict yields exactly the described state. -/
theorem handleAppeal_spec_witness :
    handleAppeal sSample =
      { sSample with
          history := sSample.history ++
            [{ roundNumber := sSample.history.length + 1
               catArg := sSample.catArg
               dogArg := sSample.dogArg
               verdict := vSample }]
          verdict := none
          catArg := ""
          dogArg := "" } :=
  (handleAppeal_spec sSample).1 vSample rfl

/-- C3: with a verdict present (the only situation in which the accept
button is rendered), `handleAcceptVerdict` empties the history and clears
both names, the verdict and both argument texts, whatever the prior
history length. -/
theorem handleAcceptVerdict_spec (s : AppState) (v : Verdict)
    (hv : s.verdict = some v) :
    acceptAvailable s = true ∧
    (handleAcceptVerdict s).history = [] ∧
    (handleAcceptVerdict s).catName = "" ∧
    (handleAcceptVerdict s).dogName = "" ∧
    (handleAcceptVerdict s).verdict = none ∧
    (handleAcceptVerdict s).catArg = "" ∧
    (handleAcceptVerdict s).dogArg = "" := by
  refine ⟨?_, rfl, rfl, rfl, rfl, rfl, rfl⟩
  simp [acceptAvailable, hv]

/-- Witness for C3 at a concrete state with a nonempty history. -/
theorem handleAcceptVerdict_spec_witness :
    acceptAvailable sSample = true ∧
    (handleAcceptVerdict sSample).history = [] ∧
    (handleAcceptVerdict sSample).catName = "" ∧
    (handleAcceptVerdict sSample).dogName = "" ∧
    (handleAcceptVerdict sSample).verdict = none ∧
    (handleAcceptVerdict sSample).catArg = "" ∧
    (handleAcceptVerdict sSample).dogArg = "" :=
  handleAcceptVerdict_spec sSample vSample rfl

/-- A state whose cat argument is a single space: nonempty as a string,
but blocked by the trimming guard of `handleJudgeClick`. -/
def sBlankCat : AppState :=
  { sSample with catArg := " ", verdict := none }

/-- A state whose dog argument is a single space: nonempty as a string,
but blocked by the trimming guard of `handleJudgeClick`. -/
def sBlankDog : AppState :=
  { sSample with dogArg := " ", verdict := none }

/-- C5, counterexample to the claim as stated: in `sBlankCat` both
argument texts are nonempty strings, yet `handleJudgeClick` makes no
judgment call and leaves the state unchanged, because the guard tests the
arguments after trimming (`!catArg.trim()`), and `" "` trims to empty. -/
theorem judgeClick_guard_cex :
    sBlankCat.catArg ≠ "" ∧ sBlankCat.dogArg ≠ "" ∧
    handleJudgeClick (Except.ok vSample) sBlankCat =
      { state := sBlankCat, wasJudging := false
        calledWith := none, alerted := false } := by
  refine ⟨by decide, by decide, ?_⟩
  decide

/-- C5 (amended): the submit guard works on the trimmed argument texts:
if either argument trims to the empty string, `handleJudgeClick` makes no
judgment call, shows no alert and leaves the state unchanged; if both
trim nonempty, the submission proceeds (a judgment call is made). -/
theorem judgeClick_guard (s : AppState) (res : Except Unit Verdict) :
    ((trimString s.catArg = "" ∨ trimString s.dogArg = "") →
      handleJudgeClick res s =
        { state := s, wasJudging := false, calledWith := none, alerted := false }) ∧
    (trimString s.catArg ≠ "" → trimString s.dogArg ≠ "" →
      (handleJudgeClick res s).calledWith ≠ none) := by
  constructor
  · intro h
    simp [handleJudgeClick, h]
  · intro hc hd
    cases res <;> simp [handleJudgeClick, hc, hd]

/-- Witness for C5: both directions of the guard at concrete states. -/
theorem judgeClick_guard_witness :
    (trimString sBlankDog.catArg = "" ∨ trimString sBlankDog.dogArg = "") ∧
    handleJudgeClick (Except.ok vSample) sBlankDog =
      { state := sBlankDog, wasJudging := false, calledWith := none, alerted := false } ∧
    trimString sSample.catArg ≠ "" ∧ trimString sSample.dogArg ≠ "" ∧
    (handleJudgeClick (Except.ok vSample) sSample).calledWith ≠ none :=
  ⟨Or.inr (by decide),
   (judgeClick_guard sBlankDog (Except.ok vSample)).1 (Or.inr (by decide)),
   by decide, by decide,
   (judgeClick_guard sSample (Except.ok vSample)).2 (by decide) (by decide)⟩

/-- A state whose dog argument is whitespace only, with a distinct cat
argument, used as the concrete counterexample input for C2. -/
def sBlankDog2 : AppState :=
  { sSample with catArg := "mine", dogArg := "  ", verdict := none }

/-- C2, counterexample to the claim as stated: in `sBlankDog2` both
argument texts are nonempty strings, yet submitting never raises the
judging flag and never calls `getJudgment`: the guard compares the
arguments after trimming, so a whitespace-only argument blocks
submission. -/
theorem judgeClick_outcome_cex :
    sBlankDog2.catArg ≠ "" ∧ sBlankDog2.dogArg ≠ "" ∧
    (handleJudgeClick (Except.ok vSample) sBlankDog2).wasJudging = false ∧
    (handleJudgeClick (Except.ok vSample) sBlankDog2).calledWith = none := by
  refine ⟨by decide, by decide, ?_, ?_⟩ <;> decide

/-- C2 (amended): for arguments that are nonempty after trimming,
submitting raises the judging flag, calls `getJudgment` with the current
arguments, the effective display names and the full history, and ends in
exactly one of two outcomes — the returned verdict is stored with no
alert, or on failure the verdict is absent and the alert shown; in both
outcomes the judging flag ends false and the history and argument texts
are unchanged. -/
theorem judgeClick_outcome (s : AppState) (res : Except Unit Verdict)
    (hc : trimString s.catArg ≠ "") (hd : trimString s.dogArg ≠ "") :
    (handleJudgeClick res s).wasJudging = true ∧
    (handleJudgeClick res s).calledWith =
      some { catArg := s.catArg, dogArg := s.dogArg
             catName := if s.catName = "" then "喵喵辩手" else s.catName
             dogName := if s.dogName = "" then "汪汪辩手" else s.dogName
             history := s.history } ∧
    ((∃ v, res = Except.ok v ∧
        (handleJudgeClick res s).state.verdict = some v ∧
        (handleJudgeClick res s).alerted = false) ∨
      (∃ e, res = Except.error e ∧
        (handleJudgeClick res s).state.verdict = none ∧
        (handleJudgeClick res s).alerted = true)) ∧
    (handleJudgeClick res s).state.isJudging = false ∧
    (handleJudgeClick res s).state.history = s.history ∧
    (handleJudgeClick res s).state.catArg = s.catArg ∧
    (handleJudgeClick res s).state.dogArg = s.dogArg := by
  cases res with
  | ok v =>
      refine ⟨?_, ?_, Or.inl ⟨v, rfl, ?_, ?_⟩, ?_, ?_, ?_, ?_⟩ <;>
        simp [handleJudgeClick, hc, hd]
  | error e =>
      refine ⟨?_, ?_, Or.inr ⟨e, rfl, ?_, ?_⟩, ?_, ?_, ?_, ?_⟩ <;>
        simp [handleJudgeClick, hc, hd]

/-- Witness for C2: the success outcome at a concrete state. -/
theorem judgeClick_outcome_witness :
    trimString sSample.catArg ≠ "" ∧ trimString sSample.dogArg ≠ "" ∧
    (handleJudgeClick (Except.ok vSample) sSample).wasJudging = true ∧
    (handleJudgeClick (Except.ok vSample) sSample).state.verdict = some vSample ∧
    (handleJudgeClick (Except.ok vSample) sSample).state.history = sSample.history := by
  have h := judgeClick_outcome sSample (Except.ok vSample) (by decide) (by decide)
  refine ⟨by decide, by decide, h.1, ?_, h.2.2.2.2.1⟩
  rcases h.2.2.1 with ⟨v, hv, hverdict, _⟩ | ⟨e, he, _, _⟩
  · cases hv
    exact hverdict
  · cases he

/-- C10: when a debater's name is empty at submission time, the judgment
call receives the fixed default (`'喵喵辩手'` or `'汪汪辩手'`); a nonempty
name is passed unchanged; the stored name state is never modified. -/
theorem judgeClick_effective_names (s : AppState) (res : Except Unit Verdict)
    (hc : trimString s.catArg ≠ "") (hd : trimString s.dogArg ≠ "") :
    (s.catName = "" →
      ((handleJudgeClick res s).calledWith.map JudgmentCall.catName) = some "喵喵辩手") ∧
    (s.catName ≠ "" →
      ((handleJudgeClick res s).calledWith.map JudgmentCall.catName) = some s.catName) ∧
    (s.dogName = "" →
      ((handleJudgeClick res s).calledWith.map JudgmentCall.dogName) = some "汪汪辩手") ∧
    (s.dogName ≠ "" →
      ((handleJudgeClick res s).calledWith.map JudgmentCall.dogName) = some s.dogName) ∧
    (handleJudgeClick res s).state.catName = s.catName ∧
    (handleJudgeClick res s).state.dogName = s.dogName := by
  cases res <;>
    exact ⟨fun h => by simp [handleJudgeClick, hc, hd, h],
           fun h => by simp [handleJudgeClick, hc, hd, h],
           fun h => by simp [handleJudgeClick, hc, hd, h],
           fun h => by simp [handleJudgeClick, hc, hd, h],
           by simp [handleJudgeClick, hc, hd],
           by simp [handleJudgeClick, hc, hd]⟩

/-- Witness for C10: `sSample` has a nonempty cat name (passed through)
and an empty dog name (replaced by the default); neither stored name
changes. -/
theorem judgeClick_effective_names_witness :
    trimString sSample.catArg ≠ "" ∧ trimString sSample.dogArg ≠ "" ∧
    sSample.catName ≠ "" ∧ sSample.dogName = "" ∧
    ((handleJudgeClick (Except.ok vSample) sSample).calledWith.map JudgmentCall.catName)
      = some sSample.catName ∧
    ((handleJudgeClick (Except.ok vSample) sSample).calledWith.map JudgmentCall.dogName)
      = some "汪汪辩手" ∧
    (handleJudgeClick (Except.ok vSample) sSample).state.catName = sSample.catName ∧
    (handleJudgeClick (Except.ok vSample) sSample).state.dogName = sSample.dogName := by
  have h := judgeClick_effective_names sSample (Except.ok vSample) (by decide) (by decide)
  exact ⟨by decide, by decide, by decide, rfl,
    h.2.1 (by decide), h.2.2.1 rfl, h.2.2.2.2.1, h.2.2.2.2.2⟩

/-- C9: `handleAppeal` only touches the history, the verdict and the two
argument texts; names, images and the two flags are unchanged. -/
theorem handleAppeal_frame (s : AppState) :
    (handleAppeal s).catName = s.catName ∧
    (handleAppeal s).dogName = s.dogName ∧
    (handleAppeal s).images = s.images ∧
    (handleAppeal s).loadingImages = s.loadingImages ∧
    (handleAppeal s).isJudging = s.isJudging := by
  cases hv : s.verdict <;> simp [handleAppeal, hv]

/-- A fully-populated cached record. -/
def cFull : CharacterImages :=
  { judge := some "j", catDebater := some "c", dogDebater := some "d" }

/-- An environment whose cache read returns a fully-populated record. -/
def envHit : LoadEnv :=
  { cacheLoad := Except.ok (some cFull)
    genJudge := Except.ok "gj", genCat := Except.ok "gc", genDog := Except.ok "gd"
    saveResult := Except.ok () }

/-- An environment whose cache read returns nothing and whose three
generations succeed. -/
def envMiss : LoadEnv :=
  { cacheLoad := Except.ok none
    genJudge := Except.ok "gj", genCat := Except.ok "gc", genDog := Except.ok "gd"
    saveResult := Except.ok () }

/-- C4: a cache load returning a fully-populated record short-circuits
generation (zero calls, cached record becomes the image state); a partial
or absent record triggers exactly three generation calls, and when all
succeed the resulting record is both stored and saved to the cache as a
unit. -/
theorem loadImages_cache_spec (env : LoadEnv) :
    (∀ c, env.cacheLoad = Except.ok (some c) → fullCache c = true →
      loadImages env =
        { images := c, loadingImages := false, genCalls := 0, saveRequested := none }) ∧
    ((env.cacheLoad = Except.ok none ∨
        ∃ c, env.cacheLoad = Except.ok (some c) ∧ fullCache c = false) →
      (loadImages env).genCalls = 3 ∧
      (∀ j c d, env.genJudge = Except.ok j → env.genCat = Except.ok c →
        env.genDog = Except.ok d →
        (loadImages env).images =
          { judge := some j, catDebater := some c, dogDebater := some d } ∧
        (loadImages env).saveRequested =
          some { judge := some j, catDebater := some c, dogDebater := some d })) := by
  constructor
  · intro c hload hfull
    simp [loadImages, hload, hfull]
  · intro hmiss
    have hgen : loadImages env = generateImagesPath env := by
      rcases hmiss with hnone | ⟨c, hc, hfull⟩
      · simp [loadImages, hnone]
      · simp [loadImages, hc, hfull]
    constructor
    · rw [hgen]
      unfold generateImagesPath
      cases env.genJudge <;> cases env.genCat <;> cases env.genDog <;> rfl
    · intro j c d hj hc hd
      rw [hgen]
      simp [generateImagesPath, hj, hc, hd]

/-- Witness for C4: a concrete full hit makes zero generation calls; a
concrete miss makes three and saves the generated record. -/
theorem loadImages_cache_spec_witness :
    fullCache cFull = true ∧
    loadImages envHit =
      { images := cFull, loadingImages := false, genCalls := 0, saveRequested := none } ∧
    (loadImages envMiss).genCalls = 3 ∧
    (loadImages envMiss).saveRequested =
      some { judge := some "gj", catDebater := some "gc", dogDebater := some "gd" } :=
  ⟨by decide,
   (loadImages_cache_spec envHit).1 cFull rfl (by decide),
   ((loadImages_cache_spec envMiss).2 (Or.inl rfl)).1,
   (((loadImages_cache_spec envMiss).2 (Or.inl rfl)).2 "gj" "gc" "gd" rfl rfl rfl).2⟩

/-- C6: a storage error during the cache read is caught and treated as a
cache miss — the run proceeds exactly as if the read had returned
nothing. -/
theorem loadImages_error_is_miss (env : LoadEnv) :
    loadImages { env with cacheLoad := Except.error () } =
      loadImages { env with cacheLoad := Except.ok none } :=
  rfl

/-- C7: whenever the generation path runs (no full cache hit) and at
least one of the three generation calls fails, the run ends in the fixed
outcome: images still the initial all-absent record, nothing passed to
the cache save, loading flag cleared, and the same outcome whatever the
particular subset of failures. -/
theorem loadImages_gen_failure (env : LoadEnv)
    (hmiss : ∀ c, env.cacheLoad = Except.ok (some c) → fullCache c = false)
    (hfail : env.genJudge = Except.error () ∨ env.genCat = Except.error () ∨
      env.genDog = Except.error ()) :
    loadImages env =
      { images := initialImages, loadingImages := false
        genCalls := 3, saveRequested := none } := by
  have hgen : loadImages env = generateImagesPath env := by
    rcases hload : env.cacheLoad with e | oc
    · simp [loadImages, hload]
    · cases oc with
      | none => simp [loadImages, hload]
      | some c => simp [loadImages, hload, hmiss c hload]
  rw [hgen]
  unfold generateImagesPath
  rcases hfail with h | h | h <;>
    rw [h] <;> cases env.genJudge <;> cases env.genCat <;> cases env.genDog <;> rfl

/-- Witness for C7: with an absent cache record, two generations
succeeding and one failing, the outcome is the fixed failure outcome —
partial success is not distinguished from total failure. -/
theorem loadImages_gen_failure_witness :
    loadImages { envMiss with genCat := Except.error () } =
      { images := initialImages, loadingImages := false
        genCalls := 3, saveRequested := none } :=
  loadImages_gen_failure { envMiss with genCat := Except.error () }
    (fun c hc => by simp [envMiss] at hc) (Or.inr (Or.inl rfl))

/-- Helper for the throttle proof: any keystroke at which the sound plays
has a timestamp more than 100ms above the `lastTypeTime` value the trace
started from — intermediate plays only push the threshold up. -/
theorem typingTrace_played_gt :
    ∀ (ts : List Int) (last : Int) (j : Nat) (t : Int),
      (typingTrace last ts).get? j = some true → ts.get? j = some t →
      t > last + 100 := by
  intro ts
  induction ts with
  | nil => intro last j t hp _; simp [typingTrace] at hp
  | cons a as ih =>
      intro last j t hp ht
      by_cases hcond : a - last > 100
      · cases j with
        | zero =>
            simp at ht
            omega
        | succ k =>
            have hp' : (typingTrace a as).get? k = some true := by
              simpa [typingTrace, handleTypingSound, hcond] using hp
            have ht' : as.get? k = some t := by simpa using ht
            have := ih a k t hp' ht'
            omega
      · cases j with
        | zero =>
            simp [typingTrace, handleTypingSound, hcond] at hp
        | succ k =>
            have hp' : (typingTrace last as).get? k = some true := by
              simpa [typingTrace, handleTypingSound, hcond] using hp
            have ht' : as.get? k = some t := by simpa using ht
            exact ih last k t hp' ht'

/-- Helper for the throttle proof: two distinct keystrokes at which the
sound plays are more than 100ms apart, for any starting ref value. -/
theorem typingTrace_gap :
    ∀ (ts : List Int) (last : Int) (i j : Nat) (ti tj : Int),
      i < j →
      (typingTrace last ts).get? i = some true →
      (typingTrace last ts).get? j = some true →
      ts.get? i = some ti → ts.get? j = some tj →
      tj - ti > 100 := by
  intro ts
  induction ts with
  | nil => intro last i j ti tj _ hpi _ _ _; simp [typingTrace] at hpi
  | cons a as ih =>
      intro last i j ti tj hij hpi hpj hti htj
      obtain ⟨k, rfl⟩ : ∃ k, j = k + 1 := ⟨j - 1, by omega⟩
      by_cases hcond : a - last > 100
      · cases i with
        | zero =>
            have hti' : a = ti := by simpa using hti
            have hpj' : (typingTrace a as).get? k = some true := by
              simpa [typingTrace, handleTypingSound, hcond] using hpj
            have htj' : as.get? k = some tj := by simpa using htj
            have := typingTrace_played_gt as a k tj hpj' htj'
            omega
        | succ l =>
            have hpi' : (typingTrace a as).get? l = some true := by
              simpa [typingTrace, handleTypingSound, hcond] using hpi
            have hpj' : (typingTrace a as).get? k = some true := by
              simpa [typingTrace, handleTypingSound, hcond] using hpj
            exact ih a l k ti tj (by omega) hpi' hpj'
              (by simpa using hti) (by simpa using htj)
      · cases i with
        | zero =>
            simp [typingTrace, handleTypingSound, hcond] at hpi
        | succ l =>
            have hpi' : (typingTrace last as).get? l = some true := by
              simpa [typingTrace, handleTypingSound, hcond] using hpi
            have hpj' : (typingTrace last as).get? k = some true := by
              simpa [typingTrace, handleTypingSound, hcond] using hpj
            exact ih last l k ti tj (by omega) hpi' hpj'
              (by simpa using hti) (by simpa using htj)

/-- C8: one keystroke plays the sound iff strictly more than 100ms have
passed since the stored last-fired timestamp, and the timestamp is
updated to the keystroke's time exactly when the sound plays; as a
consequence, over any sequence of keystrokes (ref starting at 0, as in
the component), two keystrokes that both play the sound have timestamps
more than 100ms apart — the sound never plays twice within a 100ms
window. -/
theorem handleTypingSound_throttle :
    (∀ last now : Int,
      ((handleTypingSound last now).1 = true ↔ now - last > 100) ∧
      (handleTypingSound last now).2 =
        (if (handleTypingSound last now).1 then now else last)) ∧
    (∀ (events : List Int) (i j : Nat) (ti tj : Int), i < j →
      (typingTrace 0 events).get? i = some true →
      (typingTrace 0 events).get? j = some true →
      events.get? i = some ti → events.get? j = some tj →
      tj - ti > 100) := by
  constructor
  · intro last now
    by_cases h : now - last > 100 <;> simp [handleTypingSound, h]
  · intro events i j ti tj hij hpi hpj hti htj
    exact typingTrace_gap events 0 i j ti tj hij hpi hpj hti htj

/-- Witness for C8: in the keystroke sequence at 150ms, 200ms, 300ms the
sound plays at the first and third keystrokes (not the second), and those
two are more than 100ms apart. -/
theorem handleTypingSound_throttle_witness :
    (0 : Nat) < 2 ∧
    typingTrace 0 [150, 200, 300] = [true, false, true] ∧
    (typingTrace 0 [150, 200, 300]).get? 0 = some true ∧
    (typingTrace 0 [150, 200, 300]).get? 2 = some true ∧
    (300 : Int) - 150 > 100 := by
  refine ⟨by decide, by decide, by decide, by decide, ?_⟩
  exact handleTypingSound_throttle.2 [150, 200, 300] 0 2 150 300
    (by decide) (by decide) (by decide) (by decide) (by decide)

end PurrfectJudge
